import Mathlib

/-!
Verification development for the FrameGen Vulkan interception layer
(`app/src/main/cpp/vulkan/vulkan_layer.h`, self-contained implementation)
and its adaptive timing/thermal controller
(`app/src/main/cpp/pipeline/frame_queue.h`, TimingController implementation).

The C++ code is shallowly embedded: the per-present state machine of
`VulkanLayer::onQueuePresent` becomes a pure function over an explicit
`DeviceData` record together with a driver oracle supplying the results of
next-layer calls, and the sequence of next-layer calls issued is returned as
an explicit trace.  Machine integers are modelled as `Nat` (the counters are
64-bit and far from overflow; image counts and indices are 32-bit and the
code never exercises wrap-around), and the controller's `float` arithmetic is
modelled over `ℚ` with the literals of the source (0.15f, 0.1f, 0.05f, 0.7f,
75.0f, 85.0f) taken exactly.
-/

set_option autoImplicit false

namespace FrameGen

/-- Vulkan result codes used by the layer.  `success` and `suboptimalKHR`
are the two codes the engine treats as success (`VK_SUCCESS`,
`VK_SUBOPTIMAL_KHR`); the error constructors cover the non-success codes
a driver can report on the calls the layer issues. -/
inductive VkResult where
  | success
  | suboptimalKHR
  | errorOutOfDateKHR
  | errorSurfaceLostKHR
  | errorDeviceLost
  | errorOutOfDeviceMemory
  | errorInitializationFailed
  | incomplete
  | errorLayerNotPresent
  deriving DecidableEq, Repr

/-- The check `r == VK_SUCCESS || r == VK_SUBOPTIMAL_KHR` the engine applies
to the synthesised present and to the acquire (vulkan_layer.h lines 789, 798). -/
def VkResult.isOk : VkResult → Bool
  | .success => true
  | .suboptimalKHR => true
  | _ => false

/-- `VulkanLayer::StagingImage`: image handle, memory handle, validity flag.
Handles are modelled as `Option Nat` (`none` = `VK_NULL_HANDLE`). -/
structure StagingImage where
  image : Option Nat := none
  memory : Option Nat := none
  valid : Bool := false
  deriving DecidableEq, Repr

/-- `VulkanLayer::SwapchainData`: the tracked images, format and extent of a
surface chain. -/
structure SwapchainData where
  images : List Nat := []
  format : Nat := 0
  width : Nat := 0
  height : Nat := 0
  deriving DecidableEq, Repr

/-- The fields of `VulkanLayer::DeviceData` the present/chain/staging logic
reads and writes.  The dispatch-table part of `DeviceData` is modelled
separately (see `DeviceDispatch` below) for the registry claims. -/
structure DeviceData where
  swapchains : List (Nat × SwapchainData) := []
  prevFrame : StagingImage := {}
  curFrame : StagingImage := {}
  hasPrev : Bool := false
  captureW : Nat := 0
  captureH : Nat := 0
  captureFormat : Nat := 0
  frameCount : Nat := 0
  interpCount : Nat := 0
  deriving DecidableEq, Repr

/-- One next-layer call issued by the layer, with the arguments that matter
to the specification.  `present` records the full present-info contents
forwarded to the next layer. -/
structure PresentInfo where
  waitSemaphores : List Nat := []
  swapchains : List Nat := []
  imageIndices : List Nat := []
  hasResults : Bool := false
  deriving DecidableEq, Repr

inductive NextCall where
  | present (info : PresentInfo)
  | queueSubmit (waitSemaphores : List Nat)
  | acquireNextImage (chain : Nat)
  | waitForFences
  | resetFences
  | deviceWaitIdle
  | createImage (w h fmt : Nat)
  | getImageMemoryRequirements
  | allocateMemory
  | bindImageMemory
  | destroyImage (handle : Nat)
  | freeMemory (handle : Nat)
  deriving DecidableEq, Repr

/-- Driver oracle: the results the next layer returns for each call the layer
issues, consumed in call order.  A present call yields the overall result and
the per-chain results written into a caller-provided result array (when one
is passed); an acquire yields a result and the acquired image index; image
creation and memory allocation yield `some handle` on success and `none` on
failure. -/
structure Driver where
  presents : List (VkResult × List VkResult) := []
  acquires : List (VkResult × Nat) := []
  imageCreates : List (Option Nat) := []
  memAllocs : List (Option Nat) := []
  deriving DecidableEq, Repr

def Driver.nextPresent (d : Driver) : (VkResult × List VkResult) × Driver :=
  match d.presents with
  | [] => ((.success, []), d)
  | r :: rest => (r, { d with presents := rest })

def Driver.nextAcquire (d : Driver) : (VkResult × Nat) × Driver :=
  match d.acquires with
  | [] => ((.success, 0), d)
  | r :: rest => (r, { d with acquires := rest })

def Driver.nextImageCreate (d : Driver) : Option Nat × Driver :=
  match d.imageCreates with
  | [] => (none, d)
  | r :: rest => (r, { d with imageCreates := rest })

def Driver.nextMemAlloc (d : Driver) : Option Nat × Driver :=
  match d.memAllocs with
  | [] => (none, d)
  | r :: rest => (r, { d with memAllocs := rest })

/-- `VulkanLayer::destroyStagingImage`: destroy the image if non-null, free
the memory if non-null, clear the validity flag. -/
def destroyStagingImage (img : StagingImage) : StagingImage × List NextCall :=
  let t1 : List NextCall := match img.image with
    | some h => [.destroyImage h]
    | none => []
  let t2 : List NextCall := match img.memory with
    | some h => [.freeMemory h]
    | none => []
  ({ image := none, memory := none, valid := false }, t1 ++ t2)

/-- `VulkanLayer::createStagingImage`: create the image (fail ⇒ give up with
the slot invalid), query memory requirements, allocate device-local memory
(fail ⇒ destroy the image and give up), bind, mark valid. -/
def createStagingImage (drv : Driver) (w h fmt : Nat) :
    StagingImage × Driver × List NextCall :=
  let c := drv.nextImageCreate
  match c.1 with
  | none => ({ image := none, memory := none, valid := false }, c.2,
      [.createImage w h fmt])
  | some handle =>
    let m := c.2.nextMemAlloc
    match m.1 with
    | none => ({ image := none, memory := none, valid := false }, m.2,
        [.createImage w h fmt, .getImageMemoryRequirements, .allocateMemory,
         .destroyImage handle])
    | some mh => ({ image := some handle, memory := some mh, valid := true }, m.2,
        [.createImage w h fmt, .getImageMemoryRequirements, .allocateMemory,
         .bindImageMemory])

/-- `VulkanLayer::ensureStaging`: return immediately when `curFrame.valid`
and the capture extent/format match; otherwise wait for device idleness,
destroy both staging images, create two fresh ones, record the new
extent/format and reset `hasPrev`. -/
def ensureStaging (dev : DeviceData) (drv : Driver) (w h fmt : Nat) :
    DeviceData × Driver × List NextCall :=
  if dev.curFrame.valid = true ∧ dev.captureW = w ∧ dev.captureH = h ∧
      dev.captureFormat = fmt then
    (dev, drv, [])
  else
    let d1 := destroyStagingImage dev.prevFrame
    let d2 := destroyStagingImage dev.curFrame
    let c1 := createStagingImage drv w h fmt
    let c2 := createStagingImage c1.2.1 w h fmt
    let dev2 : DeviceData :=
      { dev with
        prevFrame := c1.1
        curFrame := c2.1
        captureW := w
        captureH := h
        captureFormat := fmt
        hasPrev := false }
    (dev2, c2.2.1, NextCall.deviceWaitIdle :: (d1.2 ++ d2.2 ++ c1.2.2 ++ c2.2.2))


/-- Result of one `onQueuePresent` call: the final device record, the value
returned to the caller, the trace of next-layer calls issued (in order), what
was written into the caller-provided per-chain result array (`none` when
nothing was written), and the remaining driver oracle. -/
structure PresentOutcome where
  dev : DeviceData
  ret : VkResult
  trace : List NextCall
  callerResults : Option (List VkResult)
  driver : Driver
  deriving DecidableEq, Repr

/-- Lookup of `dev.swapchains` by handle, as `dev.swapchains.find(...)`. -/
def lookupChain (chains : List (Nat × SwapchainData)) (h : Nat) :
    Option SwapchainData :=
  (chains.find? (fun p => p.1 == h)).map Prod.snd

/-- Forwarding the caller's present verbatim to the next layer
(`dev.fpQueuePresentKHR(queue, pPresentInfo)`): the next layer consumes the
call, returns its overall result, and fills the caller's result array when
the caller passed one.  `pre` is the trace accumulated before the forward. -/
def passthroughPresent (dev : DeviceData) (drv : Driver) (info : PresentInfo)
    (pre : List NextCall) : PresentOutcome :=
  let p := drv.nextPresent
  { dev := dev
    ret := p.1.1
    trace := pre ++ [.present info]
    callerResults := if info.hasResults then some p.1.2 else none
    driver := p.2 }

/-- The final unconditional bookkeeping of `onQueuePresent`:
`std::swap(dev.prevFrame, dev.curFrame); dev.hasPrev = true;`. -/
def finishSwap (dev : DeviceData) : DeviceData :=
  { dev with
    prevFrame := dev.curFrame
    curFrame := dev.prevFrame
    hasPrev := true }

/-- `VulkanLayer::onQueuePresent` (vulkan_layer.h lines 635-876), the
frame-doubling engine.  `enabled` is the `enabled_` master switch.  The
trace records every next-layer call in program order; the global atomic
counters (`totalFrames_`, `totalInterp_`) mirror the per-device counters and
are not modelled separately. -/
def onQueuePresent (enabled : Bool) (dev : DeviceData) (drv : Driver)
    (info : PresentInfo) : PresentOutcome :=
  if !enabled || info.swapchains.length == 0 then
    passthroughPresent dev drv info []
  else
    let dev := { dev with frameCount := dev.frameCount + 1 }
    let swapchain := info.swapchains.headD 0
    let imageIndex := info.imageIndices.headD 0
    match lookupChain dev.swapchains swapchain with
    | none => passthroughPresent dev drv info []
    | some sc =>
      if sc.images.isEmpty || decide (sc.images.length ≤ imageIndex) then
        passthroughPresent dev drv info []
      else
        let e := ensureStaging dev drv sc.width sc.height sc.format
        let dev := e.1
        let drv := e.2.1
        let tEnsure := e.2.2
        if !(dev.curFrame.valid && dev.prevFrame.valid) then
          passthroughPresent dev drv info tEnsure
        else
          -- fence wait + reset, record and submit the capture/blit command
          -- buffer waiting on the caller's semaphores, then block on the fence
          let tSubmit : List NextCall :=
            [.waitForFences, .resetFences, .queueSubmit info.waitSemaphores,
             .waitForFences]
          if dev.hasPrev then
            -- Step 3: present the intermediate (synthesised) frame
            let interpInfo : PresentInfo :=
              { waitSemaphores := []
                swapchains := [swapchain]
                imageIndices := [imageIndex]
                hasResults := false }
            let p1 := drv.nextPresent
            let interpResult := p1.1.1
            let tail :=
              if interpResult == .success || interpResult == .suboptimalKHR then
                let dev := { dev with interpCount := dev.interpCount + 1 }
                -- Step 4: acquire a new image, blit the real frame, present
                let a := p1.2.nextAcquire
                let acqResult := a.1.1
                let newIndex := a.1.2
                if acqResult == .success || acqResult == .suboptimalKHR then
                  let realInfo : PresentInfo :=
                    { waitSemaphores := []
                      swapchains := [swapchain]
                      imageIndices := [newIndex]
                      hasResults := false }
                  let p2 := a.2.nextPresent
                  (dev, p2.2,
                   [NextCall.acquireNextImage swapchain, .waitForFences,
                    .resetFences, .queueSubmit [], .waitForFences,
                    .present realInfo])
                else
                  (dev, a.2, [NextCall.acquireNextImage swapchain])
              else
                (dev, p1.2, ([] : List NextCall))
            { dev := finishSwap tail.1
              ret := .success
              trace := tEnsure ++ tSubmit ++ [.present interpInfo] ++ tail.2.2
              callerResults := none
              driver := tail.2.1 }
          else
            -- first frame: present normally (a fresh info copying the
            -- caller's chains and indices, no semaphores, no result array)
            let firstInfo : PresentInfo :=
              { waitSemaphores := []
                swapchains := info.swapchains
                imageIndices := info.imageIndices
                hasResults := false }
            let p1 := drv.nextPresent
            { dev := finishSwap dev
              ret := .success
              trace := tEnsure ++ tSubmit ++ [.present firstInfo]
              callerResults := none
              driver := p1.2 }

/-- Number of next-layer present invocations in a trace. -/
def countPresents (t : List NextCall) : Nat :=
  (t.filter fun c => match c with | .present _ => true | _ => false).length

/-- The fields of `VkSwapchainCreateInfoKHR` (enumerated so that "all other
fields pass through unchanged" is expressible field by field).  `imageUsage`
is the usage bitmask as a natural number. -/
structure SwapchainCreateInfo where
  flags : Nat := 0
  surface : Nat := 0
  minImageCount : Nat := 0
  imageFormat : Nat := 0
  imageColorSpace : Nat := 0
  imageExtentW : Nat := 0
  imageExtentH : Nat := 0
  imageArrayLayers : Nat := 0
  imageUsage : Nat := 0
  imageSharingMode : Nat := 0
  queueFamilyIndices : List Nat := []
  preTransform : Nat := 0
  compositeAlpha : Nat := 0
  presentMode : Nat := 0
  clipped : Bool := false
  oldSwapchain : Nat := 0
  deriving DecidableEq, Repr

/-- The bit value of `VK_IMAGE_USAGE_TRANSFER_SRC_BIT`. -/
def transferSrcBit : Nat := 1

/-- The bit value of `VK_IMAGE_USAGE_TRANSFER_DST_BIT`. -/
def transferDstBit : Nat := 2

/-- The modified copy `modInfo` built in `onCreateSwapchain`:
`minImageCount = max(requested + 1, 3)` and the two transfer-usage bits OR-ed
into `imageUsage`. -/
def augmentCreateInfo (ci : SwapchainCreateInfo) : SwapchainCreateInfo :=
  { ci with
    minImageCount := max (ci.minImageCount + 1) 3
    imageUsage := ci.imageUsage ||| (transferSrcBit ||| transferDstBit) }

/-- Result of one `onCreateSwapchain` call: the final device record, the
value returned to the caller, the creation structures passed to the
next-layer `vkCreateSwapchainKHR` in call order, and the remaining driver
oracle for the staging reconfiguration. -/
structure ChainOutcome where
  dev : DeviceData
  ret : VkResult
  creates : List SwapchainCreateInfo
  driver : Driver
  deriving DecidableEq, Repr

/-- Tail of `onCreateSwapchain` after a successful next-layer creation:
query the image list, record the chain (keyed by the returned handle, with
format and extent taken from the caller's structure), trigger the staging
mirror, return `VK_SUCCESS`. -/
def finishCreateSwapchain (dev : DeviceData) (drv : Driver) (images : List Nat)
    (ci : SwapchainCreateInfo) (handle : Nat)
    (creates : List SwapchainCreateInfo) : ChainOutcome :=
  let sc : SwapchainData :=
    { images := images
      format := ci.imageFormat
      width := ci.imageExtentW
      height := ci.imageExtentH }
  let dev := { dev with
    swapchains := (handle, sc) :: dev.swapchains.filter (fun p => p.1 ≠ handle) }
  let e := ensureStaging dev drv sc.width sc.height sc.format
  { dev := e.1, ret := .success, creates := creates, driver := e.2.1 }

/-- `VulkanLayer::onCreateSwapchain` (vulkan_layer.h lines 568-615).
`r1` is the next layer's answer to creation with the augmented structure;
`r2` its answer to the fallback creation with the original structure
(consumed only when the first attempt fails); `images` the image list the
next layer reports for the created chain; `handle` the created chain
handle. -/
def onCreateSwapchain (dev : DeviceData) (drv : Driver) (r1 r2 : VkResult)
    (images : List Nat) (ci : SwapchainCreateInfo) (handle : Nat) :
    ChainOutcome :=
  let modInfo := augmentCreateInfo ci
  if r1 ≠ .success then
    if r2 ≠ .success then
      { dev := dev, ret := r2, creates := [modInfo, ci], driver := drv }
    else
      finishCreateSwapchain dev drv images ci handle [modInfo, ci]
  else
    finishCreateSwapchain dev drv images ci handle [modInfo]

/-! ### Layer enumeration façade -/

/-- `VkLayerProperties` content. -/
structure LayerProps where
  layerName : String
  specVersion : Nat
  implementationVersion : Nat
  description : String
  deriving DecidableEq, Repr

/-- The static `layerProps` of the layer: name, `VK_MAKE_VERSION(1, 3, 0)`,
implementation version 1, description. -/
def framegenLayerProps : LayerProps :=
  { layerName := "VK_LAYER_FRAMEGEN_capture"
    specVersion := (1 <<< 22) ||| (3 <<< 12) ||| 0
    implementationVersion := 1
    description := "FrameGen — rootless frame generation layer" }

/-- `framegen_EnumerateInstanceLayerProperties` (and the device variant,
which forwards to it).  Inputs: the incoming `*pPropertyCount` and whether
`pProperties` is non-null.  Outputs: the result code, the outgoing
`*pPropertyCount`, and what was written into the property buffer (`none`
when the buffer was not written). -/
def enumerateLayerProps (countIn : Nat) (hasBuffer : Bool) :
    VkResult × Nat × Option LayerProps :=
  if !hasBuffer then (.success, 1, none)
  else if 1 ≤ countIn then (.success, 1, some framegenLayerProps)
  else (.incomplete, countIn, none)

/-- `framegen_EnumerateInstanceExtensionProperties` (and the device variant):
with this layer's name, report zero extensions and succeed; with any other
name (or a null name), report `VK_ERROR_LAYER_NOT_PRESENT` and leave the
count untouched. -/
def enumerateExtensionProps (layerName : Option String) (countIn : Nat) :
    VkResult × Nat :=
  match layerName with
  | some n =>
    if n = framegenLayerProps.layerName then (.success, 0)
    else (.errorLayerNotPresent, countIn)
  | none => (.errorLayerNotPresent, countIn)

/-! ### Dispatch table registry -/

/-- The next-layer function pointers of a registry record that the present
and proc-address hooks call through; `none` models a null pointer.  A
default-constructed record (what `devices_[key]` creates for an absent key)
has every pointer null. -/
structure DeviceDispatch where
  fpGetDeviceProcAddr : Option Nat := none
  fpQueuePresentKHR : Option Nat := none
  deriving DecidableEq, Repr

def emptyDeviceDispatch : DeviceDispatch := {}

/-- `devices_[key]`: `std::unordered_map::operator[]` returns the stored
record, default-constructing an empty one when the key is absent. -/
def lookupOrDefault : List (Nat × DeviceDispatch) → Nat → DeviceDispatch
  | [], _ => emptyDeviceDispatch
  | p :: rest, k => if p.1 = k then p.2 else lookupOrDefault rest k

/-- Registry life-cycle events: a successful `onCreateDevice` stores a
record with the next-layer pointers resolved from the layer link (non-null),
keyed by the dispatch key; `onDestroyDevice` erases the key. -/
inductive RegistryEvent where
  | createDevice (key gdpa qp : Nat)
  | destroyDevice (key : Nat)
  deriving DecidableEq, Repr

def applyEvent (reg : List (Nat × DeviceDispatch)) :
    RegistryEvent → List (Nat × DeviceDispatch)
  | .createDevice k g q =>
    (k, { fpGetDeviceProcAddr := some g, fpQueuePresentKHR := some q }) ::
      reg.filter (fun p => p.1 ≠ k)
  | .destroyDevice k => reg.filter (fun p => p.1 ≠ k)

def runEvents (es : List RegistryEvent) : List (Nat × DeviceDispatch) :=
  es.foldl applyEvent []

/-- Whether the last create/destroy event for key `k` is a create: device
creation succeeded for the key and no destroy has happened since. -/
def liveKey (es : List RegistryEvent) (k : Nat) : Bool :=
  es.foldl
    (fun acc e =>
      match e with
      | .createDevice k2 _ _ => if k2 = k then true else acc
      | .destroyDevice k2 => if k2 = k then false else acc)
    false

/-- The outcome of `VulkanLayer::getDeviceProcAddr` for one name: one of the
layer's own entry points, a delegation through the stored next-layer
pointer, or a call through a null function pointer (undefined behaviour). -/
inductive ProcResult where
  | layerHook (name : String)
  | nextLayer (fp : Nat) (name : String)
  | nullCall (name : String)
  deriving DecidableEq, Repr

/-- The names `VulkanLayer::getDeviceProcAddr` intercepts. -/
def interceptedDeviceProcs : List String :=
  ["vkQueuePresentKHR", "vkDestroyDevice", "vkCreateSwapchainKHR",
   "vkDestroySwapchainKHR", "vkGetDeviceProcAddr"]

/-- `VulkanLayer::getDeviceProcAddr` (vulkan_layer.h lines 1002-1016): the
intercepted names resolve to the layer's own entry points; everything else
goes through `devices_[key].fpGetDeviceProcAddr(device, pName)` with no
presence or null check. -/
def getDeviceProcAddrModel (reg : List (Nat × DeviceDispatch)) (k : Nat)
    (name : String) : ProcResult :=
  if name ∈ interceptedDeviceProcs then .layerHook name
  else
    match (lookupOrDefault reg k).fpGetDeviceProcAddr with
    | some fp => .nextLayer fp name
    | none => .nullCall name

/-! ### Adaptive timing/thermal controller

`TimingController` from `pipeline/timing_controller.h` with its
implementation in `pipeline/frame_queue.h` (second document).  `float`
values are modelled as exact rationals; the thermal sensor read
(`getGpuTemperature`, a sysfs read) is modelled as an input parameter
`temp`, with `0` the "unknown" value the code returns when no sensor is
readable. -/

/-- The configuration fields `onFrameComplete`/`adjustQuality` touch. -/
structure TCConfig where
  thermal_protection : Bool := true
  model_scale : ℚ := 1/2
  quality : ℚ := 1/2
  deriving DecidableEq, Repr

/-- `TimingController::AdaptiveState`. -/
structure TCState where
  currentScale : ℚ := 1/2
  currentQuality : ℚ := 1/2
  targetMs : ℚ := 8
  avgMs : ℚ := 0
  maxMs : ℚ := 0
  minMs : ℚ := 999
  throttled : Bool := false
  consecutiveOverBudget : Nat := 0
  consecutiveUnderBudget : Nat := 0
  deriving DecidableEq, Repr

def qmax (l : List ℚ) : ℚ := l.foldl max (l.headD 0)

def qmin (l : List ℚ) : ℚ := l.foldl min (l.headD 0)

/-- `TimingController::adjustQuality`: step scale and quality down by
0.1 / 0.15 (clamped below at 0.25 / 0) or up by 0.05 / 0.05 (clamped above
at 0.75 / 1), copy the new values into the config, and reset both
consecutive counters. -/
def adjustQuality (overBudget : Bool) (cfg : TCConfig) (st : TCState) :
    TCConfig × TCState :=
  let st :=
    if overBudget then
      { st with
        currentScale := max (1/4) (st.currentScale - 1/10)
        currentQuality := max 0 (st.currentQuality - 3/20) }
    else
      { st with
        currentScale := min (3/4) (st.currentScale + 1/20)
        currentQuality := min 1 (st.currentQuality + 1/20) }
  ({ cfg with model_scale := st.currentScale, quality := st.currentQuality },
   { st with consecutiveOverBudget := 0, consecutiveUnderBudget := 0 })

/-- Result of one `onFrameComplete` sample. -/
structure TCOutcome where
  cfg : TCConfig
  st : TCState
  history : List ℚ
  onBudget : Bool
  deriving DecidableEq, Repr

/-- The tail of `onFrameComplete` after the thermal block: step down after
five consecutive over-budget samples; step up after thirty consecutive
under-budget samples with the running average below 70% of budget. -/
def adaptiveTail (cfg : TCConfig) (st : TCState) (hist : List ℚ)
    (overBudget : Bool) : TCOutcome :=
  if 5 ≤ st.consecutiveOverBudget then
    let a := adjustQuality true cfg st
    { cfg := a.1, st := a.2, history := hist, onBudget := false }
  else if 30 ≤ st.consecutiveUnderBudget ∧ st.avgMs < st.targetMs * (7/10) then
    let a := adjustQuality false cfg st
    { cfg := a.1, st := a.2, history := hist, onBudget := !overBudget }
  else
    { cfg := cfg, st := st, history := hist, onBudget := !overBudget }

/-- The bounded history update: push the sample at the back, drop the oldest
sample when the 60-sample bound is exceeded. -/
def pushHistory (history : List ℚ) (t : ℚ) : List ℚ :=
  let hist := history ++ [t]
  if 60 < hist.length then hist.drop 1 else hist

/-- `TimingController::onFrameComplete` (frame_queue.h lines 110-169):
push the sample into the bounded history, recompute the running stats,
update the consecutive over/under-budget counters, then (with thermal
protection on) set `throttled` for temperatures above 75, clamp to minima
and bail out above 85, step down early at three consecutive over-budget
samples while throttled, and finally apply the adaptive step rules. -/
def onFrameComplete (cfg : TCConfig) (st : TCState) (history : List ℚ)
    (frameTimeMs temp : ℚ) : TCOutcome :=
  let hist := pushHistory history frameTimeMs
  let st := { st with
    avgMs := hist.sum / hist.length
    maxMs := qmax hist
    minMs := qmin hist }
  let overBudget := st.targetMs < frameTimeMs
  let st :=
    if overBudget then
      { st with
        consecutiveOverBudget := st.consecutiveOverBudget + 1
        consecutiveUnderBudget := 0 }
    else
      { st with
        consecutiveUnderBudget := st.consecutiveUnderBudget + 1
        consecutiveOverBudget := 0 }
  if cfg.thermal_protection then
    let st := { st with throttled := decide ((75 : ℚ) < temp) }
    if (85 : ℚ) < temp then
      let st := { st with currentScale := 1/4, currentQuality := 0 }
      let cfg := { cfg with model_scale := 1/4, quality := 0 }
      { cfg := cfg, st := st, history := hist, onBudget := false }
    else if st.throttled = true ∧ 3 ≤ st.consecutiveOverBudget then
      let a := adjustQuality true cfg st
      { cfg := a.1, st := a.2, history := hist, onBudget := false }
    else
      adaptiveTail cfg st hist overBudget
  else
    adaptiveTail cfg st hist overBudget

/-- The documented operating ranges of the controller's outputs: quality in
[0, 1] and model scale in [0.25, 0.75]. -/
def inRange (s : TCState) : Prop :=
  0 ≤ s.currentQuality ∧ s.currentQuality ≤ 1 ∧
  1/4 ≤ s.currentScale ∧ s.currentScale ≤ 3/4

/-! ### Concrete fixtures used by counterexamples and witnesses -/

/-- A tracked 1920x1080 chain with three images, handle 5, format 7. -/
def scFix : SwapchainData :=
  { images := [100, 101, 102], format := 7, width := 1920, height := 1080 }

/-- A device with `scFix` tracked, a valid configured staging mirror and
`hasPrev = true` (steady running state). -/
def devReady : DeviceData :=
  { swapchains := [(5, scFix)]
    prevFrame := { image := some 1, memory := some 2, valid := true }
    curFrame := { image := some 3, memory := some 4, valid := true }
    hasPrev := true
    captureW := 1920
    captureH := 1080
    captureFormat := 7 }

/-- The same device before its first present (mirror just configured). -/
def devFirst : DeviceData := { devReady with hasPrev := false }

/-- A present of image 0 of chain 5 with one wait semaphore and a
caller-provided result array. -/
def infoFix : PresentInfo :=
  { waitSemaphores := [9], swapchains := [5], imageIndices := [0]
    hasResults := true }

/-- The precondition under which `onQueuePresent` takes the frame-doubling
path rather than a bypass: the engine enabled path carries at least one
chain, the first chain is tracked, the image index is in range, and the
staging mirror is valid and configured for that chain's extent and
format. -/
def enginePath (dev : DeviceData) (info : PresentInfo)
    (sc : SwapchainData) : Prop :=
  info.swapchains ≠ [] ∧
  lookupChain dev.swapchains (info.swapchains.headD 0) = some sc ∧
  sc.images ≠ [] ∧
  info.imageIndices.headD 0 < sc.images.length ∧
  dev.curFrame.valid = true ∧
  dev.prevFrame.valid = true ∧
  dev.captureW = sc.width ∧
  dev.captureH = sc.height ∧
  dev.captureFormat = sc.format

instance (dev : DeviceData) (info : PresentInfo) (sc : SwapchainData) :
    Decidable (enginePath dev info sc) := by
  unfold enginePath
  infer_instance

/-! ### Generic helper lemmas -/

/-! ### Claim theorems -/

/-- Claim C3: on surface-chain creation the core modifies exactly two fields
of a copy of the caller's creation structure — `min_image_count` becomes
`max(requested + 1, 3)` and the transfer-source/transfer-destination bits
are OR-ed into `image_usage` — while every other field passes through
unchanged; if creation with the augmented structure fails, creation is
retried exactly once with the original structure verbatim, and failure of
that retry is returned to the caller. -/
theorem createSwapchain_spec (dev : DeviceData) (drv : Driver)
    (r1 r2 : VkResult) (images : List Nat) (ci : SwapchainCreateInfo)
    (handle : Nat) :
    ((augmentCreateInfo ci).minImageCount = max (ci.minImageCount + 1) 3 ∧
     (augmentCreateInfo ci).imageUsage =
       ci.imageUsage ||| (transferSrcBit ||| transferDstBit)) ∧
    ((augmentCreateInfo ci).flags = ci.flags ∧
     (augmentCreateInfo ci).surface = ci.surface ∧
     (augmentCreateInfo ci).imageFormat = ci.imageFormat ∧
     (augmentCreateInfo ci).imageColorSpace = ci.imageColorSpace ∧
     (augmentCreateInfo ci).imageExtentW = ci.imageExtentW ∧
     (augmentCreateInfo ci).imageExtentH = ci.imageExtentH ∧
     (augmentCreateInfo ci).imageArrayLayers = ci.imageArrayLayers ∧
     (augmentCreateInfo ci).imageSharingMode = ci.imageSharingMode ∧
     (augmentCreateInfo ci).queueFamilyIndices = ci.queueFamilyIndices ∧
     (augmentCreateInfo ci).preTransform = ci.preTransform ∧
     (augmentCreateInfo ci).compositeAlpha = ci.compositeAlpha ∧
     (augmentCreateInfo ci).presentMode = ci.presentMode ∧
     (augmentCreateInfo ci).clipped = ci.clipped ∧
     (augmentCreateInfo ci).oldSwapchain = ci.oldSwapchain) ∧
    (r1 = .success →
      (onCreateSwapchain dev drv r1 r2 images ci handle).creates =
        [augmentCreateInfo ci]) ∧
    (r1 ≠ .success →
      (onCreateSwapchain dev drv r1 r2 images ci handle).creates =
        [augmentCreateInfo ci, ci]) ∧
    (r1 ≠ .success → r2 ≠ .success →
      (onCreateSwapchain dev drv r1 r2 images ci handle).ret = r2 ∧
      (onCreateSwapchain dev drv r1 r2 images ci handle).dev = dev) := by
  refine ⟨⟨rfl, rfl⟩, ⟨rfl, rfl, rfl, rfl, rfl, rfl, rfl, rfl, rfl, rfl,
    rfl, rfl, rfl, rfl⟩, ?_, ?_, ?_⟩
  · intro h1
    simp [onCreateSwapchain, finishCreateSwapchain, h1]
  · intro h1
    simp only [onCreateSwapchain, if_pos h1]
    split <;> simp [finishCreateSwapchain]
  · intro h1 h2
    simp [onCreateSwapchain, h1, h2]

/-- Witness for C3 at concrete inputs: a failing augmented creation followed
by a failing verbatim retry returns the retry's error, after exactly the two
creation calls. -/
theorem createSwapchain_spec_witness :
    (onCreateSwapchain devReady {} .errorInitializationFailed
        .errorOutOfDeviceMemory [] {} 6).creates =
      [augmentCreateInfo {}, {}] ∧
    (onCreateSwapchain devReady {} .errorInitializationFailed
        .errorOutOfDeviceMemory [] {} 6).ret = .errorOutOfDeviceMemory := by
  refine ⟨(createSwapchain_spec devReady {} _ _ [] {} 6).2.2.2.1 (by decide),
    ((createSwapchain_spec devReady {} _ _ [] {} 6).2.2.2.2
      (by decide) (by decide)).1⟩

/-- Claim C9: layer enumeration reports exactly one layer; calling it with a
too-small property-count buffer returns an incomplete indication and does
not mutate the output buffer or the count; extension enumeration queried
with this layer's name returns an empty set with success, and with any
other name returns the layer-not-present error. -/
theorem enumeration_spec (countIn : Nat) (n : String) :
    (enumerateLayerProps countIn false = (.success, 1, none)) ∧
    (1 ≤ countIn →
      enumerateLayerProps countIn true = (.success, 1, some framegenLayerProps)) ∧
    (countIn < 1 →
      enumerateLayerProps countIn true = (.incomplete, countIn, none)) ∧
    (enumerateExtensionProps (some framegenLayerProps.layerName) countIn =
      (.success, 0)) ∧
    (n ≠ framegenLayerProps.layerName →
      enumerateExtensionProps (some n) countIn =
        (.errorLayerNotPresent, countIn)) ∧
    (enumerateExtensionProps none countIn = (.errorLayerNotPresent, countIn)) := by
  refine ⟨rfl, ?_, ?_, ?_, ?_, rfl⟩
  · intro h
    simp [enumerateLayerProps, h]
  · intro h
    simp [enumerateLayerProps, Nat.not_le.mpr h, Nat.lt_irrefl]
  · simp [enumerateExtensionProps]
  · intro h
    simp [enumerateExtensionProps, h]

theorem lookupOrDefault_filter_ne {reg : List (Nat × DeviceDispatch)}
    {k k2 : Nat} (h : k ≠ k2) :
    lookupOrDefault (reg.filter (fun p => p.1 ≠ k2)) k =
      lookupOrDefault reg k := by
  induction reg with
  | nil => rfl
  | cons hd tl ih =>
    rw [List.filter_cons]
    by_cases h2 : hd.1 = k2
    · have hk : hd.1 ≠ k := fun hek => h (hek ▸ h2)
      rw [if_neg (by simp [h2]), ih]
      simp [lookupOrDefault, hk]
    · rw [if_pos (by simp [h2])]
      simp only [lookupOrDefault]
      by_cases h3 : hd.1 = k
      · rw [if_pos h3, if_pos h3]
      · rw [if_neg h3, if_neg h3, ih]

theorem lookupOrDefault_filter_self {reg : List (Nat × DeviceDispatch)}
    {k : Nat} :
    lookupOrDefault (reg.filter (fun p => p.1 ≠ k)) k = emptyDeviceDispatch := by
  induction reg with
  | nil => rfl
  | cons hd tl ih =>
    rw [List.filter_cons]
    by_cases h2 : hd.1 = k
    · rw [if_neg (by simp [h2]), ih]
    · rw [if_pos (by simp [h2])]
      simp only [lookupOrDefault]
      rw [if_neg h2, ih]

/-- Single step of the registry/liveness correspondence. -/
theorem lookup_applyEvent (reg : List (Nat × DeviceDispatch))
    (e : RegistryEvent) (k : Nat) :
    (lookupOrDefault (applyEvent reg e) k).fpGetDeviceProcAddr.isSome =
      (match e with
       | .createDevice k2 _ _ =>
         if k2 = k then true
         else (lookupOrDefault reg k).fpGetDeviceProcAddr.isSome
       | .destroyDevice k2 =>
         if k2 = k then false
         else (lookupOrDefault reg k).fpGetDeviceProcAddr.isSome) := by
  cases e with
  | createDevice k2 g q =>
    by_cases h : k2 = k
    · simp [applyEvent, lookupOrDefault, h]
    · have hne : k ≠ k2 := fun hh => h hh.symm
      simp only [applyEvent, lookupOrDefault]
      rw [if_neg h, if_neg h, lookupOrDefault_filter_ne hne]
  | destroyDevice k2 =>
    by_cases h : k2 = k
    · simp only [applyEvent, h, eq_self_iff_true, if_true]
      rw [lookupOrDefault_filter_self]
      rfl
    · have hne : k ≠ k2 := fun hh => h hh.symm
      simp only [applyEvent]
      rw [if_neg h, lookupOrDefault_filter_ne hne]

/-- The registry/liveness correspondence, generalised over the starting
registry so that induction over the event list goes through. -/
theorem lookup_foldl (es : List RegistryEvent)
    (reg : List (Nat × DeviceDispatch)) (k : Nat) :
    (lookupOrDefault (es.foldl applyEvent reg) k).fpGetDeviceProcAddr.isSome =
      es.foldl
        (fun acc e =>
          match e with
          | .createDevice k2 _ _ => if k2 = k then true else acc
          | .destroyDevice k2 => if k2 = k then false else acc)
        ((lookupOrDefault reg k).fpGetDeviceProcAddr.isSome) := by
  induction es generalizing reg with
  | nil => rfl
  | cons e es ih =>
    simp only [List.foldl_cons]
    rw [ih (applyEvent reg e), lookup_applyEvent]

/-- Claim C10: the present hook and the device proc-address lookup resolve
per-device state by dispatch key with no presence or null check: an absent
key yields a default-constructed record whose next-layer pointers are null,
so the non-intercepted lookup path is well-defined (the null-pointer call
branch unreachable) exactly when device creation previously succeeded for
that dispatch key and no destroy has happened since. -/
theorem dispatchRegistry_spec (es : List RegistryEvent) (k : Nat)
    (name : String) (reg : List (Nat × DeviceDispatch)) :
    ((∀ p ∈ reg, p.1 ≠ k) → lookupOrDefault reg k = emptyDeviceDispatch) ∧
    emptyDeviceDispatch.fpGetDeviceProcAddr = none ∧
    (name ∉ interceptedDeviceProcs →
      (getDeviceProcAddrModel (runEvents es) k name ≠ .nullCall name ↔
        liveKey es k = true)) := by
  refine ⟨?_, rfl, ?_⟩
  · intro habs
    induction reg with
    | nil => rfl
    | cons hd tl ih =>
      have h1 : hd.1 ≠ k := habs hd (List.mem_cons_self hd tl)
      simp only [lookupOrDefault]
      rw [if_neg h1]
      exact ih (fun p hp => habs p (List.mem_cons_of_mem hd hp))
  · intro hni
    have hkey :
        (lookupOrDefault (runEvents es) k).fpGetDeviceProcAddr.isSome =
          liveKey es k := by
      have h0 :
          (lookupOrDefault ([] : List (Nat × DeviceDispatch)) k).fpGetDeviceProcAddr.isSome
            = false := rfl
      rw [runEvents, lookup_foldl es [] k, h0]
      rfl
    unfold getDeviceProcAddrModel
    rw [if_neg hni]
    constructor
    · intro hne
      cases hfp : (lookupOrDefault (runEvents es) k).fpGetDeviceProcAddr with
      | none =>
        exfalso
        apply hne
        rw [hfp]
      | some fp =>
        rw [← hkey, hfp]
        rfl
    · intro hlive hcontra
      rw [← hkey] at hlive
      cases hfp : (lookupOrDefault (runEvents es) k).fpGetDeviceProcAddr with
      | none =>
        rw [hfp] at hlive
        exact Bool.noConfusion hlive
      | some fp =>
        rw [hfp] at hcontra
        exact ProcResult.noConfusion hcontra

/-- Witness for C10 at concrete inputs: after a create for key 4 followed by
a destroy of key 9, the non-intercepted lookup for key 4 is well-defined,
and the lookup on an empty registry for key 4 is the default record. -/
theorem dispatchRegistry_spec_witness :
    lookupOrDefault [] 4 = emptyDeviceDispatch ∧
    (getDeviceProcAddrModel
        (runEvents [.createDevice 4 21 22, .destroyDevice 9]) 4
        "vkCreateImage" ≠ .nullCall ("vkCreateImage") ↔
      liveKey [.createDevice 4 21 22, .destroyDevice 9] 4 = true) := by
  refine ⟨(dispatchRegistry_spec [] 4 "vkCreateImage" []).1 (by simp),
    (dispatchRegistry_spec [.createDevice 4 21 22, .destroyDevice 9] 4
      "vkCreateImage" []).2.2 (by decide)⟩

/-- Counterexample to claim C5: when the first staging-image creation fails
and the second succeeds, `ensureStaging` leaves `curFrame` valid and
`prevFrame` absent (the two staging images are neither both valid nor both
absent), and a subsequent `ensure` with the same (width, height, format)
returns immediately without reconfiguring even though both staging images do
not exist — the early-return checks only `curFrame`. -/
theorem staging_cex :
    ((ensureStaging {} { imageCreates := [none, some 1], memAllocs := [some 10] }
        8 6 3).1.curFrame.valid = true ∧
     (ensureStaging {} { imageCreates := [none, some 1], memAllocs := [some 10] }
        8 6 3).1.prevFrame.valid = false) ∧
    ensureStaging
        (ensureStaging {} { imageCreates := [none, some 1], memAllocs := [some 10] }
          8 6 3).1 {} 8 6 3 =
      ((ensureStaging {} { imageCreates := [none, some 1], memAllocs := [some 10] }
          8 6 3).1, {}, []) := by
  decide

/-- Claim C5 as amended: `ensure` returns immediately without reconfiguring
exactly when the current staging image exists with matching
(width, height, format); any reconfiguration starts with a device-wide
idle; and provided both staging-image creations succeed, the reconfigured
mirror has both images valid with matching (width, height, format) and
`has_previous` reset. -/
theorem staging_amended (dev : DeviceData) (drv : Driver) (w h fmt : Nat) :
    (ensureStaging dev drv w h fmt = (dev, drv, []) ↔
      (dev.curFrame.valid = true ∧ dev.captureW = w ∧ dev.captureH = h ∧
        dev.captureFormat = fmt)) ∧
    (¬(dev.curFrame.valid = true ∧ dev.captureW = w ∧ dev.captureH = h ∧
        dev.captureFormat = fmt) →
      (ensureStaging dev drv w h fmt).2.2.head? = some .deviceWaitIdle) ∧
    (∀ a b m1 m2 r1 r2,
      drv.imageCreates = some a :: some b :: r1 →
      drv.memAllocs = some m1 :: some m2 :: r2 →
      ¬(dev.curFrame.valid = true ∧ dev.captureW = w ∧ dev.captureH = h ∧
          dev.captureFormat = fmt) →
      (ensureStaging dev drv w h fmt).1.prevFrame.valid = true ∧
      (ensureStaging dev drv w h fmt).1.curFrame.valid = true ∧
      (ensureStaging dev drv w h fmt).1.captureW = w ∧
      (ensureStaging dev drv w h fmt).1.captureH = h ∧
      (ensureStaging dev drv w h fmt).1.captureFormat = fmt ∧
      (ensureStaging dev drv w h fmt).1.hasPrev = false) := by
  by_cases hc : dev.curFrame.valid = true ∧ dev.captureW = w ∧
      dev.captureH = h ∧ dev.captureFormat = fmt
  · refine ⟨?_, fun hn => absurd hc hn,
      fun _ _ _ _ _ _ _ _ hn => absurd hc hn⟩
    simp [ensureStaging, hc]
  · refine ⟨?_, ?_, ?_⟩
    · constructor
      · intro he
        have h3 := congrArg (fun t => t.2.2) he
        simp only [ensureStaging, if_neg hc] at h3
        exact List.noConfusion h3
      · intro hcond
        exact absurd hcond hc
    · intro _
      simp [ensureStaging, hc]
    · intro a b m1 m2 r1 r2 h1 h2 _
      simp [ensureStaging, hc, createStagingImage, Driver.nextImageCreate,
        Driver.nextMemAlloc, h1, h2]

/-- Witness for C5 at concrete inputs: a reconfiguration whose two creations
succeed produces a fully valid matching mirror, starting with a device
idle, and `ensure` on the result is the identity. -/
theorem staging_amended_witness :
    ((ensureStaging {}
        { imageCreates := [some 1, some 2], memAllocs := [some 11, some 12] }
        8 6 3).2.2.head? = some .deviceWaitIdle) ∧
    ((ensureStaging {}
        { imageCreates := [some 1, some 2], memAllocs := [some 11, some 12] }
        8 6 3).1.prevFrame.valid = true ∧
     (ensureStaging {}
        { imageCreates := [some 1, some 2], memAllocs := [some 11, some 12] }
        8 6 3).1.curFrame.valid = true ∧
     (ensureStaging {}
        { imageCreates := [some 1, some 2], memAllocs := [some 11, some 12] }
        8 6 3).1.captureW = 8 ∧
     (ensureStaging {}
        { imageCreates := [some 1, some 2], memAllocs := [some 11, some 12] }
        8 6 3).1.captureH = 6 ∧
     (ensureStaging {}
        { imageCreates := [some 1, some 2], memAllocs := [some 11, some 12] }
        8 6 3).1.captureFormat = 3 ∧
     (ensureStaging {}
        { imageCreates := [some 1, some 2], memAllocs := [some 11, some 12] }
        8 6 3).1.hasPrev = false) ∧
    (ensureStaging devReady {} 1920 1080 7 = (devReady, {}, [])) := by
  refine ⟨(staging_amended {}
      { imageCreates := [some 1, some 2], memAllocs := [some 11, some 12] }
      8 6 3).2.1 (by decide),
    (staging_amended {}
      { imageCreates := [some 1, some 2], memAllocs := [some 11, some 12] }
      8 6 3).2.2 1 2 11 12 [] [] rfl rfl (by decide),
    (staging_amended devReady {} 1920 1080 7).1.mpr (by decide)⟩

/-- Counterexample to claim C6: on the mirror-not-valid bypass path the set
of next-layer calls is not exactly one present with the caller's arguments —
when the staging mirror needs (re)configuration and it fails, the engine
first issues a device-wait-idle and two image-creation calls, then bypasses.
Here the device tracks the presented chain but has no valid staging and the
driver refuses both image creations. -/
theorem bypass_cex :
    (onQueuePresent true { swapchains := [(5, scFix)] } { presents := [(.success, [.success])] }
        infoFix).trace =
      [.deviceWaitIdle, .createImage 1920 1080 7, .createImage 1920 1080 7,
       .present infoFix] ∧
    (onQueuePresent true { swapchains := [(5, scFix)] } { presents := [(.success, [.success])] }
        infoFix).trace ≠ [.present infoFix] := by
  decide

/-- Claim C6 as amended: every bypass path issues exactly one next-layer
present carrying the caller's arguments and returns that call's result,
populating the caller's result array exactly as a passthrough would; on the
disabled and zero-chain paths the whole call is literally the passthrough;
on the mirror-not-valid path the one present is preceded by the staging
(re)configuration attempt's calls (device idle and staging setup), which are
absent when no reconfiguration was attempted. -/
theorem bypass_amended (dev : DeviceData) (drv : Driver) (info : PresentInfo) :
    (onQueuePresent false dev drv info = passthroughPresent dev drv info []) ∧
    (info.swapchains = [] → ∀ e,
      onQueuePresent e dev drv info = passthroughPresent dev drv info []) ∧
    (lookupChain dev.swapchains (info.swapchains.headD 0) = none →
      (onQueuePresent true dev drv info).trace = [.present info] ∧
      (onQueuePresent true dev drv info).ret = drv.nextPresent.1.1 ∧
      (onQueuePresent true dev drv info).callerResults =
        (if info.hasResults then some drv.nextPresent.1.2 else none)) ∧
    (∀ sc, lookupChain dev.swapchains (info.swapchains.headD 0) = some sc →
      (sc.images.isEmpty = true ∨
        sc.images.length ≤ info.imageIndices.headD 0) →
      (onQueuePresent true dev drv info).trace = [.present info] ∧
      (onQueuePresent true dev drv info).ret = drv.nextPresent.1.1 ∧
      (onQueuePresent true dev drv info).callerResults =
        (if info.hasResults then some drv.nextPresent.1.2 else none)) ∧
    (∀ sc, info.swapchains ≠ [] →
      lookupChain dev.swapchains (info.swapchains.headD 0) = some sc →
      sc.images.isEmpty = false →
      info.imageIndices.headD 0 < sc.images.length →
      ((ensureStaging { dev with frameCount := dev.frameCount + 1 } drv
          sc.width sc.height sc.format).1.curFrame.valid &&
        (ensureStaging { dev with frameCount := dev.frameCount + 1 } drv
          sc.width sc.height sc.format).1.prevFrame.valid) = false →
      (onQueuePresent true dev drv info).trace =
        (ensureStaging { dev with frameCount := dev.frameCount + 1 } drv
          sc.width sc.height sc.format).2.2 ++ [.present info] ∧
      (onQueuePresent true dev drv info).ret =
        ((ensureStaging { dev with frameCount := dev.frameCount + 1 } drv
          sc.width sc.height sc.format).2.1).nextPresent.1.1 ∧
      (onQueuePresent true dev drv info).callerResults =
        (if info.hasResults then
          some ((ensureStaging { dev with frameCount := dev.frameCount + 1 } drv
            sc.width sc.height sc.format).2.1).nextPresent.1.2
         else none)) := by
  refine ⟨rfl, ?_, ?_, ?_, ?_⟩
  · intro h e
    cases e <;> simp [onQueuePresent, h]
  · intro hlook
    rw [List.headD_eq_head?] at hlook
    by_cases hsw : info.swapchains = []
    · simp [onQueuePresent, hsw, passthroughPresent]
    · have h0 : (info.swapchains.length == 0) = false := by
        simp [List.length_eq_zero, hsw]
      simp [onQueuePresent, h0, hlook, passthroughPresent]
  · intro sc hlook hb
    rw [List.headD_eq_head?] at hlook
    by_cases hsw : info.swapchains = []
    · simp [onQueuePresent, hsw, passthroughPresent]
    · have h0 : (info.swapchains.length == 0) = false := by
        simp [List.length_eq_zero, hsw]
      have hb2 : (sc.images = [] ∨
          sc.images.length ≤ info.imageIndices.head?.getD 0) := by
        rcases hb with hb | hb
        · exact Or.inl (by simpa [List.isEmpty_iff] using hb)
        · exact Or.inr (by rw [← List.headD_eq_head?]; exact hb)
      simp [onQueuePresent, h0, hlook, hb2, passthroughPresent]
  · intro sc hsw hlook hemp hidx hmir
    rw [List.headD_eq_head?] at hlook
    rw [List.headD_eq_head?] at hidx
    have h0 : (info.swapchains.length == 0) = false := by
      simp [List.length_eq_zero, hsw]
    have hb2 : ¬(sc.images = [] ∨
        sc.images.length ≤ info.imageIndices.head?.getD 0) := by
      rintro (hb | hb)
      · rw [hb] at hemp
        exact Bool.noConfusion hemp
      · exact absurd hb (Nat.not_le.mpr hidx)
    simp [onQueuePresent, h0, hlook, hb2, hmir, passthroughPresent]

/-- Witness for C6 at concrete inputs, one per bypass path: zero chains,
untracked chain, out-of-range image index, and invalid staging mirror. -/
theorem bypass_amended_witness :
    (onQueuePresent true devReady { presents := [(.success, [])] } {} =
      passthroughPresent devReady { presents := [(.success, [])] } {} []) ∧
    ((onQueuePresent true {} { presents := [(.errorOutOfDateKHR, [.errorOutOfDateKHR])] }
        infoFix).trace = [.present infoFix]) ∧
    ((onQueuePresent true { swapchains := [(5, scFix)] }
        { presents := [(.suboptimalKHR, [.suboptimalKHR])] }
        { swapchains := [5], imageIndices := [7], hasResults := true }).trace =
      [.present { swapchains := [5], imageIndices := [7], hasResults := true }]) ∧
    ((onQueuePresent true { swapchains := [(5, scFix)] }
        { presents := [(.success, [.success])] } infoFix).trace =
      (ensureStaging { swapchains := [(5, scFix)], frameCount := 1 }
        { presents := [(.success, [.success])] } 1920 1080 7).2.2 ++
        [.present infoFix]) := by
  refine ⟨(bypass_amended devReady { presents := [(.success, [])] } {}).2.1
      rfl true,
    ((bypass_amended {} { presents := [(.errorOutOfDateKHR, [.errorOutOfDateKHR])] }
      infoFix).2.2.1 (by decide)).1,
    ((bypass_amended { swapchains := [(5, scFix)] }
      { presents := [(.suboptimalKHR, [.suboptimalKHR])] }
      { swapchains := [5], imageIndices := [7], hasResults := true }).2.2.2.1
      scFix (by decide) (Or.inr (by decide))).1,
    ?_⟩
  have h5 := ((bypass_amended { swapchains := [(5, scFix)] }
    { presents := [(.success, [.success])] } infoFix).2.2.2.2
    scFix (by decide) (by decide) (by decide) (by decide) (by decide)).1
  simpa using h5

/-- Counterexample to claim C1: on an engine-handled present whose
synthesised present the driver answers with sub-optimal, `onQueuePresent`
returns plain success — not sub-optimal — and leaves the caller-provided
result array unwritten even though the caller passed one. -/
theorem presentReturn_cex :
    (onQueuePresent true devReady
        { presents := [(.suboptimalKHR, [.suboptimalKHR]), (.success, [.success])]
          acquires := [(.success, 2)] } infoFix).ret = .success ∧
    VkResult.success ≠ .suboptimalKHR ∧
    (onQueuePresent true devReady
        { presents := [(.suboptimalKHR, [.suboptimalKHR]), (.success, [.success])]
          acquires := [(.success, 2)] } infoFix).callerResults = none ∧
    infoFix.hasResults = true := by
  decide

/-- Claim C1 as amended: for every present handled by the frame-doubling
engine, `onQueuePresent` returns plain success regardless of the results of
the driver calls it issued, and the caller-provided per-chain result array
is never written (only the bypass paths populate it as a passthrough
would). -/
theorem presentReturn_amended (dev : DeviceData) (drv : Driver)
    (info : PresentInfo) (sc : SwapchainData) (hp : enginePath dev info sc) :
    (onQueuePresent true dev drv info).ret = .success ∧
    (onQueuePresent true dev drv info).callerResults = none := by
  obtain ⟨hne, hlook, himg, hidx, hcur, hprev, hw, hh, hf⟩ := hp
  rw [List.headD_eq_head?] at hlook
  rw [List.headD_eq_head?] at hidx
  have h0 : (info.swapchains.length == 0) = false := by
    simp [List.length_eq_zero, hne]
  have hb2 : ¬(sc.images = [] ∨
      sc.images.length ≤ info.imageIndices.head?.getD 0) := by
    rintro (hb | hb)
    · exact himg hb
    · exact absurd hb (Nat.not_le.mpr hidx)
  by_cases hhp : dev.hasPrev <;>
    simp [onQueuePresent, h0, hlook, hb2, ensureStaging, hcur, hw, hh, hf,
      hprev, hhp]

/-- Witness for C1 at concrete inputs. -/
theorem presentReturn_amended_witness :
    (onQueuePresent true devReady
        { presents := [(.errorDeviceLost, [.errorDeviceLost])] }
        infoFix).ret = .success ∧
    (onQueuePresent true devReady
        { presents := [(.errorDeviceLost, [.errorDeviceLost])] }
        infoFix).callerResults = none := by
  exact presentReturn_amended devReady
    { presents := [(.errorDeviceLost, [.errorDeviceLost])] }
    infoFix scFix (by decide)

/-- Counterexample to claim C2: on an engine-handled present with
`has_previous` set, the next-layer present is invoked once — not exactly
twice — when the driver answers the synthesised present with out-of-date. -/
theorem presentCount_cex :
    countPresents (onQueuePresent true devReady
        { presents := [(.errorOutOfDateKHR, [.errorOutOfDateKHR])] }
        infoFix).trace = 1 ∧
    (1 : Nat) ≠ 2 ∧
    devReady.hasPrev = true := by
  decide

/-- Claim C2 as amended: for every present handled by the frame-doubling
engine, the next-layer present is invoked exactly twice when
`has_previous` held at entry and both the synthesised present and the
subsequent acquire returned success or sub-optimal; exactly once when
`has_previous` held but either of those driver calls failed; and exactly
once on a first present (`has_previous` false); in every case
`has_previous` is true after the call returns. -/
theorem presentCount_amended (dev : DeviceData) (drv : Driver)
    (info : PresentInfo) (sc : SwapchainData) (ir : VkResult)
    (pcr : List VkResult) (ps : List (VkResult × List VkResult))
    (ar : VkResult) (ni : Nat) (aas : List (VkResult × Nat))
    (hp : enginePath dev info sc)
    (hdp : drv.presents = (ir, pcr) :: ps)
    (hda : drv.acquires = (ar, ni) :: aas) :
    (dev.hasPrev = true → ir.isOk = true → ar.isOk = true →
      countPresents (onQueuePresent true dev drv info).trace = 2) ∧
    (dev.hasPrev = true → ir.isOk = false →
      countPresents (onQueuePresent true dev drv info).trace = 1) ∧
    (dev.hasPrev = true → ir.isOk = true → ar.isOk = false →
      countPresents (onQueuePresent true dev drv info).trace = 1) ∧
    (dev.hasPrev = false →
      countPresents (onQueuePresent true dev drv info).trace = 1) ∧
    (onQueuePresent true dev drv info).dev.hasPrev = true := by
  obtain ⟨hne, hlook, himg, hidx, hcur, hprev, hw, hh, hf⟩ := hp
  rw [List.headD_eq_head?] at hlook
  rw [List.headD_eq_head?] at hidx
  have h0 : (info.swapchains.length == 0) = false := by
    simp [List.length_eq_zero, hne]
  have hb2 : ¬(sc.images = [] ∨
      sc.images.length ≤ info.imageIndices.head?.getD 0) := by
    rintro (hb | hb)
    · exact himg hb
    · exact absurd hb (Nat.not_le.mpr hidx)
  have hb3 : ¬sc.images.length ≤ info.imageIndices.head?.getD 0 :=
    Nat.not_le.mpr hidx
  refine ⟨?_, ?_, ?_, ?_, ?_⟩
  · intro hhp hi ha
    cases ir <;> cases ar <;> simp_all [onQueuePresent, h0, hlook, hb2, hb3, if_neg hb3,
      ensureStaging, hcur, hw, hh, hf, hprev, Driver.nextPresent,
      Driver.nextAcquire, countPresents, finishSwap, VkResult.isOk]
  · intro hhp hi
    cases ir <;> simp_all [onQueuePresent, h0, hlook, hb2, hb3, if_neg hb3, ensureStaging,
      hcur, hw, hh, hf, hprev, Driver.nextPresent, Driver.nextAcquire,
      countPresents, finishSwap, VkResult.isOk]
  · intro hhp hi ha
    cases ir <;> cases ar <;> simp_all [onQueuePresent, h0, hlook, hb2, hb3, if_neg hb3,
      ensureStaging, hcur, hw, hh, hf, hprev, Driver.nextPresent,
      Driver.nextAcquire, countPresents, finishSwap, VkResult.isOk]
  · intro hhp
    simp [onQueuePresent, h0, hlook, hb2, ensureStaging, hcur, hw, hh, hf,
      hprev, hhp, Driver.nextPresent, countPresents, finishSwap]
  · by_cases hhp : dev.hasPrev <;>
      simp [onQueuePresent, h0, hlook, hb2, ensureStaging, hcur, hw, hh, hf,
        hprev, hhp, finishSwap]

/-- Witness for C2 at concrete inputs: an all-success driver yields two
presents from the running state and one present from the first-present
state, with `has_previous` true afterwards in both. -/
theorem presentCount_amended_witness :
    countPresents (onQueuePresent true devReady
        { presents := [(.success, [.success]), (.success, [.success])]
          acquires := [(.success, 2)] } infoFix).trace = 2 ∧
    countPresents (onQueuePresent true devFirst
        { presents := [(.success, [.success]), (.success, [.success])]
          acquires := [(.success, 2)] } infoFix).trace = 1 ∧
    (onQueuePresent true devFirst
        { presents := [(.success, [.success]), (.success, [.success])]
          acquires := [(.success, 2)] } infoFix).dev.hasPrev = true := by
  refine ⟨(presentCount_amended devReady _ infoFix scFix .success [.success]
      [(.success, [.success])] .success 2 [] (by decide) rfl rfl).1
      (by decide) (by decide) (by decide),
    (presentCount_amended devFirst _ infoFix scFix .success [.success]
      [(.success, [.success])] .success 2 [] (by decide) rfl rfl).2.2.2.1
      (by decide),
    (presentCount_amended devFirst _ infoFix scFix .success [.success]
      [(.success, [.success])] .success 2 [] (by decide) rfl rfl).2.2.2.2⟩

/-- Counterexample to claim C4: after a mid-sequence driver failure (the
synthesised present rejected with out-of-date, aborting before stage E),
the engine still performs the final staging `swap()` and still ends with
`has_previous` true, so the next present sequence does not treat itself as
a first present. -/
theorem abortSwap_cex :
    (onQueuePresent true devReady
        { presents := [(.errorOutOfDateKHR, [.errorOutOfDateKHR])] }
        infoFix).dev.hasPrev = true ∧
    (onQueuePresent true devReady
        { presents := [(.errorOutOfDateKHR, [.errorOutOfDateKHR])] }
        infoFix).dev.prevFrame = devReady.curFrame ∧
    devReady.curFrame ≠ devReady.prevFrame := by
  decide

/-- Claim C4 as amended: if a next-layer call returns a non-success code
mid-sequence between stages A and D of an augmented present, the engine
aborts the rest of the sequence (no acquire is issued and only the one
synthesised present reaches the next layer) but still performs the final
staging `swap()` and sets `has_previous`, so the next present sequence is
treated as an augmented present, not as a first present. -/
theorem abortSwap_amended (dev : DeviceData) (drv : Driver)
    (info : PresentInfo) (sc : SwapchainData) (ir : VkResult)
    (pcr : List VkResult) (ps : List (VkResult × List VkResult))
    (hp : enginePath dev info sc) (hhp : dev.hasPrev = true)
    (hdp : drv.presents = (ir, pcr) :: ps) (hir : ir.isOk = false) :
    (onQueuePresent true dev drv info).dev.hasPrev = true ∧
    (onQueuePresent true dev drv info).dev.prevFrame = dev.curFrame ∧
    (onQueuePresent true dev drv info).dev.curFrame = dev.prevFrame ∧
    countPresents (onQueuePresent true dev drv info).trace = 1 ∧
    (∀ ch, NextCall.acquireNextImage ch ∉
      (onQueuePresent true dev drv info).trace) := by
  obtain ⟨hne, hlook, himg, hidx, hcur, hprev, hw, hh, hf⟩ := hp
  rw [List.headD_eq_head?] at hlook
  rw [List.headD_eq_head?] at hidx
  have h0 : (info.swapchains.length == 0) = false := by
    simp [List.length_eq_zero, hne]
  have hb2 : ¬(sc.images = [] ∨
      sc.images.length ≤ info.imageIndices.head?.getD 0) := by
    rintro (hb | hb)
    · exact himg hb
    · exact absurd hb (Nat.not_le.mpr hidx)
  have hb3 : ¬sc.images.length ≤ info.imageIndices.head?.getD 0 :=
    Nat.not_le.mpr hidx
  cases ir <;> simp_all [onQueuePresent, h0, hlook, hb2, hb3, if_neg hb3, ensureStaging,
    hcur, hw, hh, hf, hprev, Driver.nextPresent, countPresents, finishSwap,
    VkResult.isOk]

/-- Witness for C4 at concrete inputs. -/
theorem abortSwap_amended_witness :
    (onQueuePresent true devReady
        { presents := [(.errorSurfaceLostKHR, [.errorSurfaceLostKHR])] }
        infoFix).dev.hasPrev = true ∧
    countPresents (onQueuePresent true devReady
        { presents := [(.errorSurfaceLostKHR, [.errorSurfaceLostKHR])] }
        infoFix).trace = 1 := by
  refine ⟨(abortSwap_amended devReady _ infoFix scFix .errorSurfaceLostKHR
      [.errorSurfaceLostKHR] [] (by decide) (by decide) rfl (by decide)).1,
    (abortSwap_amended devReady _ infoFix scFix .errorSurfaceLostKHR
      [.errorSurfaceLostKHR] [] (by decide) (by decide) rfl
      (by decide)).2.2.2.1⟩

/-- Witness for C9 at concrete inputs. -/
theorem enumeration_spec_witness :
    enumerateLayerProps 1 true = (.success, 1, some framegenLayerProps) ∧
    enumerateLayerProps 0 true = (.incomplete, 0, none) ∧
    enumerateExtensionProps (some ("VK_LAYER_other")) 7 =
      (.errorLayerNotPresent, 7) := by
  exact ⟨(enumeration_spec 1 "VK_LAYER_other").2.1 (by decide),
    (enumeration_spec 0 "VK_LAYER_other").2.2.1 (by decide),
    (enumeration_spec 7 "VK_LAYER_other").2.2.2.2.1 (by decide)⟩

/-- Counterexample to claim C7: at a sensor reading of exactly 85 degrees
the clamp branch is not taken (the code tests strictly above 85), quality
stays at its prior value; and at 80 degrees the throttled state is reported
even though 80 is below 85, because the code sets `throttled` for
temperatures strictly above 75. -/
theorem thermal_cex :
    (onFrameComplete { thermal_protection := true }
        { currentQuality := 1/2, currentScale := 1/2, targetMs := 8 }
        [] 1 85).st.currentQuality = 1/2 ∧
    ((1 : ℚ)/2 ≠ 0) ∧
    (onFrameComplete { thermal_protection := true }
        { currentQuality := 1/2, currentScale := 1/2, targetMs := 8 }
        [] 1 80).st.throttled = true ∧
    ¬((85 : ℚ) ≤ 80) := by
  refine ⟨?_, by norm_num, ?_, by norm_num⟩ <;>
    norm_num [onFrameComplete, pushHistory, adaptiveTail, adjustQuality,
      qmax, qmin]

/-- Claim C7 as amended: with thermal protection enabled, a sensor reading
strictly above 85 degrees makes `onFrameComplete` immediately clamp quality
and model scale to their minima (quality 0, scale 0.25, applied also to the
configuration), report the throttled state and return false; and the
throttled state is reported exactly when the reading is strictly above 75
degrees. -/
theorem thermal_amended (cfg : TCConfig) (st : TCState) (hist : List ℚ)
    (t temp : ℚ) (hcfg : cfg.thermal_protection = true) :
    ((85 : ℚ) < temp →
      (onFrameComplete cfg st hist t temp).st.currentQuality = 0 ∧
      (onFrameComplete cfg st hist t temp).st.currentScale = 1/4 ∧
      (onFrameComplete cfg st hist t temp).cfg.quality = 0 ∧
      (onFrameComplete cfg st hist t temp).cfg.model_scale = 1/4 ∧
      (onFrameComplete cfg st hist t temp).st.throttled = true ∧
      (onFrameComplete cfg st hist t temp).onBudget = false) ∧
    ((onFrameComplete cfg st hist t temp).st.throttled =
      decide ((75 : ℚ) < temp)) := by
  constructor
  · intro h85
    have h75 : (75 : ℚ) < temp := lt_trans (by norm_num) h85
    simp [onFrameComplete, hcfg, h85, h75]
  · simp only [onFrameComplete, adaptiveTail, adjustQuality, hcfg, if_true]
    repeat first | rfl | split

/-- Witness for C7 at concrete inputs: a 90-degree reading clamps, and a
70-degree reading is not reported throttled. -/
theorem thermal_amended_witness :
    (onFrameComplete { thermal_protection := true }
        { currentQuality := 1/2, currentScale := 1/2, targetMs := 8 }
        [] 1 90).st.currentQuality = 0 ∧
    (onFrameComplete { thermal_protection := true }
        { currentQuality := 1/2, currentScale := 1/2, targetMs := 8 }
        [] 1 70).st.throttled = decide ((75 : ℚ) < 70) := by
  exact ⟨((thermal_amended { thermal_protection := true }
      { currentQuality := 1/2, currentScale := 1/2, targetMs := 8 }
      [] 1 90 rfl).1 (by norm_num)).1,
    (thermal_amended { thermal_protection := true }
      { currentQuality := 1/2, currentScale := 1/2, targetMs := 8 }
      [] 1 70 rfl).2⟩

/-- Counterexample to claim C8: on the fifth consecutive over-budget sample
with thermal protection enabled and a reading above 85 degrees, the
controller does not step quality down by 0.15 (which would give 0.35 from
0.5); the thermal-critical branch preempts and forces quality to 0. -/
theorem adjust_cex :
    (onFrameComplete { thermal_protection := true }
        { currentQuality := 1/2, currentScale := 1/2, targetMs := 8,
          consecutiveOverBudget := 4 }
        [] 12 86).st.currentQuality = 0 ∧
    ((0 : ℚ) ≠ 1/2 - 3/20) ∧
    (onFrameComplete { thermal_protection := true }
        { currentQuality := 1/2, currentScale := 1/2, targetMs := 8,
          consecutiveOverBudget := 4 }
        [] 12 86).st.consecutiveOverBudget = 5 := by
  refine ⟨?_, by norm_num, ?_⟩ <;>
    norm_num [onFrameComplete, pushHistory, adaptiveTail, adjustQuality,
      qmax, qmin]

/-- Down-step of the controller: an over-budget sample that brings the
consecutive counter to at least five, with the thermal-critical branch not
preempting, runs `adjustQuality(true)`. -/
theorem tc_stepDown (cfg : TCConfig) (st : TCState) (hist : List ℚ)
    (t temp : ℚ)
    (hover : st.targetMs < t)
    (hcnt : 4 ≤ st.consecutiveOverBudget)
    (hnc : ¬(cfg.thermal_protection = true ∧ (85 : ℚ) < temp)) :
    (onFrameComplete cfg st hist t temp).st.currentQuality =
      max 0 (st.currentQuality - 3/20) ∧
    (onFrameComplete cfg st hist t temp).st.currentScale =
      max (1/4) (st.currentScale - 1/10) ∧
    (onFrameComplete cfg st hist t temp).st.consecutiveOverBudget = 0 ∧
    (onFrameComplete cfg st hist t temp).st.consecutiveUnderBudget = 0 := by
  have h5 : 5 ≤ st.consecutiveOverBudget + 1 := by omega
  have h3 : 3 ≤ st.consecutiveOverBudget + 1 := by omega
  by_cases hp : cfg.thermal_protection = true
  · have h85 : ¬(85 : ℚ) < temp := fun hc => hnc ⟨hp, hc⟩
    by_cases h75 : (75 : ℚ) < temp
    · simp [onFrameComplete, adaptiveTail, adjustQuality, hp, h85, h75,
        hover, h3, h5]
    · simp [onFrameComplete, adaptiveTail, adjustQuality, hp, h85, h75,
        hover, h3, h5]
  · have hp2 : cfg.thermal_protection = false := by
      cases h : cfg.thermal_protection
      · rfl
      · exact absurd h hp
    simp [onFrameComplete, adaptiveTail, adjustQuality, hp2, hover, h5]

/-- Up-step of the controller: an under-budget sample that brings the
consecutive counter to at least thirty while the running average is below
70% of budget, with no preempting branch, runs `adjustQuality(false)`. -/
theorem tc_stepUp (cfg : TCConfig) (st : TCState) (hist : List ℚ)
    (t temp : ℚ)
    (hunder : ¬st.targetMs < t)
    (hcnt : 29 ≤ st.consecutiveUnderBudget)
    (havg : (pushHistory hist t).sum / (pushHistory hist t).length <
      st.targetMs * (7/10))
    (hnc : ¬(cfg.thermal_protection = true ∧ (85 : ℚ) < temp)) :
    (onFrameComplete cfg st hist t temp).st.currentQuality =
      min 1 (st.currentQuality + 1/20) ∧
    (onFrameComplete cfg st hist t temp).st.currentScale =
      min (3/4) (st.currentScale + 1/20) ∧
    (onFrameComplete cfg st hist t temp).st.consecutiveOverBudget = 0 ∧
    (onFrameComplete cfg st hist t temp).st.consecutiveUnderBudget = 0 := by
  have h30 : 30 ≤ st.consecutiveUnderBudget + 1 := by omega
  by_cases hp : cfg.thermal_protection = true
  · have h85 : ¬(85 : ℚ) < temp := fun hc => hnc ⟨hp, hc⟩
    by_cases h75 : (75 : ℚ) < temp
    · simp [onFrameComplete, adaptiveTail, adjustQuality, hp, h85, h75,
        hunder, h30, havg]
    · simp [onFrameComplete, adaptiveTail, adjustQuality, hp, h85, h75,
        hunder, h30, havg]
  · have hp2 : cfg.thermal_protection = false := by
      cases h : cfg.thermal_protection
      · rfl
      · exact absurd h hp
    simp [onFrameComplete, adaptiveTail, adjustQuality, hp2, hunder, h30,
      havg]

theorem adjustQuality_inRange (b : Bool) (cfg : TCConfig) (st : TCState)
    (h : inRange st) : inRange (adjustQuality b cfg st).2 := by
  obtain ⟨hq0, hq1, hs0, hs1⟩ := h
  cases b <;> simp only [adjustQuality] <;> refine ⟨?_, ?_, ?_, ?_⟩
  all_goals first
    | exact le_max_left _ _
    | exact min_le_left _ _
    | exact max_le (by norm_num) (by linarith)
    | exact le_min (by norm_num) (by linarith)

attribute [irreducible] adjustQuality

set_option maxHeartbeats 800000 in
/-- Every branch of `onFrameComplete` keeps quality and scale inside their
documented ranges when they start inside them. -/
theorem tc_inRange (cfg : TCConfig) (st : TCState) (hist : List ℚ)
    (t temp : ℚ) (h : inRange st) :
    inRange (onFrameComplete cfg st hist t temp).st := by
  obtain ⟨hq0, hq1, hs0, hs1⟩ := h
  simp only [onFrameComplete, adaptiveTail]
  repeat' split
  all_goals first
    | exact ⟨hq0, hq1, hs0, hs1⟩
    | exact adjustQuality_inRange true _ _ ⟨hq0, hq1, hs0, hs1⟩
    | exact adjustQuality_inRange false _ _ ⟨hq0, hq1, hs0, hs1⟩
    | (refine ⟨?_, ?_, ?_, ?_⟩ <;> norm_num)

/-- Claim C8 as amended: after five consecutive over-budget samples the
controller steps quality down by 0.15 and scale down by 0.10 (clamped) and
resets both consecutive counters, unless the thermal-critical branch
(protection on, reading above 85) preempts; after thirty consecutive
under-budget samples with running average below 70% of budget it steps
quality and scale up by 0.05 each (clamped), under the same proviso; and
quality stays within [0, 1] and scale within [0.25, 0.75] after every
sample, given they start in range. -/
theorem adjust_amended (cfg : TCConfig) (st : TCState) (hist : List ℚ)
    (t temp : ℚ) :
    ((st.targetMs < t → 4 ≤ st.consecutiveOverBudget →
      ¬(cfg.thermal_protection = true ∧ (85 : ℚ) < temp) →
      (onFrameComplete cfg st hist t temp).st.currentQuality =
        max 0 (st.currentQuality - 3/20) ∧
      (onFrameComplete cfg st hist t temp).st.currentScale =
        max (1/4) (st.currentScale - 1/10) ∧
      (onFrameComplete cfg st hist t temp).st.consecutiveOverBudget = 0 ∧
      (onFrameComplete cfg st hist t temp).st.consecutiveUnderBudget = 0)) ∧
    ((¬st.targetMs < t → 29 ≤ st.consecutiveUnderBudget →
      (pushHistory hist t).sum / (pushHistory hist t).length <
        st.targetMs * (7/10) →
      ¬(cfg.thermal_protection = true ∧ (85 : ℚ) < temp) →
      (onFrameComplete cfg st hist t temp).st.currentQuality =
        min 1 (st.currentQuality + 1/20) ∧
      (onFrameComplete cfg st hist t temp).st.currentScale =
        min (3/4) (st.currentScale + 1/20) ∧
      (onFrameComplete cfg st hist t temp).st.consecutiveOverBudget = 0 ∧
      (onFrameComplete cfg st hist t temp).st.consecutiveUnderBudget = 0)) ∧
    (inRange st → inRange (onFrameComplete cfg st hist t temp).st) :=
  ⟨fun hover hcnt hnc => tc_stepDown cfg st hist t temp hover hcnt hnc,
   fun hunder hcnt havg hnc => tc_stepUp cfg st hist t temp hunder hcnt havg hnc,
   fun h => tc_inRange cfg st hist t temp h⟩

/-- Witness for C8 at concrete inputs: the fifth consecutive 12 ms sample
against an 8 ms budget with thermal protection off steps quality and scale
down and resets the counters, and the result stays in range. -/
theorem adjust_amended_witness :
    ((onFrameComplete { thermal_protection := false }
        { currentQuality := 1/2, currentScale := 1/2, targetMs := 8,
          consecutiveOverBudget := 4 }
        [] 12 0).st.currentQuality = max 0 (1/2 - 3/20) ∧
     (onFrameComplete { thermal_protection := false }
        { currentQuality := 1/2, currentScale := 1/2, targetMs := 8,
          consecutiveOverBudget := 4 }
        [] 12 0).st.currentScale = max (1/4) (1/2 - 1/10) ∧
     (onFrameComplete { thermal_protection := false }
        { currentQuality := 1/2, currentScale := 1/2, targetMs := 8,
          consecutiveOverBudget := 4 }
        [] 12 0).st.consecutiveOverBudget = 0 ∧
     (onFrameComplete { thermal_protection := false }
        { currentQuality := 1/2, currentScale := 1/2, targetMs := 8,
          consecutiveOverBudget := 4 }
        [] 12 0).st.consecutiveUnderBudget = 0) ∧
    inRange (onFrameComplete { thermal_protection := false }
        { currentQuality := 1/2, currentScale := 1/2, targetMs := 8,
          consecutiveOverBudget := 4 }
        [] 12 0).st := by
  refine ⟨(adjust_amended { thermal_protection := false }
      { currentQuality := 1/2, currentScale := 1/2, targetMs := 8,
        consecutiveOverBudget := 4 }
      [] 12 0).1 (by norm_num) (by norm_num) (by simp),
    (adjust_amended { thermal_protection := false }
      { currentQuality := 1/2, currentScale := 1/2, targetMs := 8,
        consecutiveOverBudget := 4 }
      [] 12 0).2.2 ⟨by norm_num, by norm_num, by norm_num, by norm_num⟩⟩

end FrameGen
